import Mathlib

/-!
Shallow embedding of the authentication module of GroupGradingWeb
(src/src/app/auth/auth.service.ts) in Lean 4.

Modelling conventions:
- The browser's `sessionStorage` / `localStorage`, restricted to the single
  key `token` actually used by the service, are the two `Option String`
  fields of `AuthState`; the private field `authenticated` is the third.
- The rxjs `Subject<boolean> authenticationStatus` is modelled by each
  operation returning the list of booleans it emitted, in order.
- A thrown JS exception is modelled by an operation returning `none`.
- The platform primitives `atob` and `JSON.parse` (not code of this
  repository) are abstracted into a parameter
  `decode : String → Option PayloadJson` mapping the base64url payload
  segment to the parsed JSON payload object, `none` meaning the primitive
  threw. Every theorem quantifies over this parameter or instantiates it
  with a concrete table.
- HTTP is modelled by passing the resolved response
  (`Except HttpError LoginSuccessModel`) to `login` directly, matching the
  rxjs pipe `tap(storeToken); map(msg); catchError(handleError)`.
-/

/-- The parsed JSON value of a `roles` claim: either a JSON array of role
strings or a single role value (`Array.isArray(userRoles)` distinguishes
the two in `parseToken`, auth.service.ts lines 296-303). -/
inductive RolesClaim where
  | array (rs : List String)
  | single (r : String)
deriving DecidableEq, Repr

/-- The JSON object obtained from `JSON.parse(atob(payloadBase64Url))` in
`parseToken` (auth.service.ts line 287): the claims the code reads.
`exp` is in seconds since epoch (the code passes it to `setUTCSeconds`). -/
structure PayloadJson where
  exp : Int
  roles : RolesClaim
  sub : String
  uid : String
  iss : String
  aud : String
deriving DecidableEq, Repr

/-- The token model built by `parseToken` (auth.service.ts lines 311-318).
The TS class `TokenPayloadModel` (model/token-model.ts) omits `uid`, but the
object literal cast `as TokenPayloadModel` carries it at runtime, so it is
kept here. `exp` is the `Date` value in milliseconds since epoch
(`exp.setUTCSeconds(payload.exp)` on `new Date(0)` gives `payload.exp * 1000`
milliseconds, auth.service.ts lines 290-292). -/
structure TokenPayloadModel where
  sub : String
  roles : List String
  uid : String
  exp : Int
  iss : String
  aud : String
deriving DecidableEq, Repr

/-- The body of a successful login response (`res.body as LoginSuccessModel`,
auth.service.ts line 49): the code reads only its `token` field. -/
structure LoginSuccessModel where
  token : String
deriving DecidableEq, Repr

/-- An `HttpErrorResponse` as discriminated by `handleError`
(auth.service.ts lines 364-375): `error.error instanceof ErrorEvent`
(client-side/network) versus a backend non-2xx status. -/
inductive HttpError where
  | clientSide (message : String)
  | serverSide (status : Nat)
deriving DecidableEq, Repr

/-- The mutable state the service touches: the value stored under the key
`token` in each of the two browser storage scopes, plus the private
`authenticated` flag (auth.service.ts line 26). -/
structure AuthState where
  sessionToken : Option String
  localToken : Option String
  authenticated : Bool
deriving DecidableEq, Repr

/-- The state after the constructor runs (auth.service.ts lines 28-31),
with both storage scopes empty. -/
def initState : AuthState :=
  { sessionToken := none, localToken := none, authenticated := false }

/-- `AuthService.LOGIN_URL` (auth.service.ts line 19). -/
def LOGIN_URL : String := "https://groupgradingapi.azurewebsites.net/api/login"

/-- `AuthService.STUDENT_REGISTER_URL` (auth.service.ts line 20). -/
def STUDENT_REGISTER_URL : String :=
  "https://groupgradingapi.azurewebsites.net/api/student/register"

/-- `AuthService.TEACHER_REGISTER_URL` (auth.service.ts line 21). -/
def TEACHER_REGISTER_URL : String :=
  "https://groupgradingapi.azurewebsites.net/api/teacher/register"

/-- `AuthService.LOGIN_SUCCESS_MSG` (auth.service.ts line 23). -/
def LOGIN_SUCCESS_MSG : String := "login success"

/-- `AuthService.REGISTER_SUCCESS_MSG` (auth.service.ts line 24). -/
def REGISTER_SUCCESS_MSG : String := "registration success"

/-- Modelled from the spec: the `ApplicationRole` enum
(model/application-role.enum.ts is not in src/; the spec describes Role as
"an enumerated value (e.g. Student, Teacher)"). Roles are modelled as their
string values so that the `default` branch of the `switch` in
`getRegistrationUrlGivenRole` (an unrecognized role) is inhabited. -/
def ApplicationRole.Student : String := "Student"

/-- Modelled from the spec: the `Teacher` member of the `ApplicationRole`
enum, as its string value. -/
def ApplicationRole.Teacher : String := "Teacher"

/-- Helper for `jsSplitDot`: structurally recursive split of a character
list at `'.'`, carrying the current segment reversed. -/
def splitDotAux : List Char → List Char → List String
  | [], acc => [String.mk acc.reverse]
  | c :: cs, acc =>
    if c = '.' then String.mk acc.reverse :: splitDotAux cs []
    else splitDotAux cs (c :: acc)

/-- JS `rawToken.split('.')`: splitting at every dot, so that for example
`"a.b.c"` gives `["a", "b", "c"]` and the empty string gives `[""]`,
matching `String.prototype.split` with a single-character separator. -/
def jsSplitDot (s : String) : List String := splitDotAux s.data []

/-- JS truthiness of a nullable string (`if (sessionStorageToken)` etc.):
`null` and the empty string are falsy. -/
def jsTruthy : Option String → Bool
  | none => false
  | some s => !s.isEmpty

/-- `tokenIsJwtFormat` (auth.service.ts lines 230-244): non-empty and
exactly three dot-separated segments. The caller never passes `null`, so
the `!rawToken` guard reduces to the empty-string check. -/
def tokenIsJwtFormat (rawToken : String) : Bool :=
  if rawToken.isEmpty then false
  else if rawToken.length == 0 then false
  else if (jsSplitDot rawToken).length != 3 then false
  else true

/-- `getRawToken` (auth.service.ts lines 195-221): session scope first, then
local scope, each gated by truthiness and `tokenIsJwtFormat`; `null` when
neither holds a well-formed token. -/
def getRawToken (st : AuthState) : Option String :=
  if jsTruthy st.sessionToken && tokenIsJwtFormat (st.sessionToken.getD "") then
    st.sessionToken
  else if jsTruthy st.localToken && tokenIsJwtFormat (st.localToken.getD "") then
    st.localToken
  else
    none

/-- `tokenIsExpired` (auth.service.ts lines 253-273): expired iff
`exp.getTime() - now.getTime() < 0`. The clock read `new Date()` is passed
in as `nowInMilli`. -/
def tokenIsExpired (nowInMilli : Int) (parsedToken : TokenPayloadModel) : Bool :=
  if parsedToken.exp - nowInMilli < 0 then true else false

/-- The token model object built by `parseToken` from the parsed payload
(auth.service.ts lines 289-318): `exp` seconds become milliseconds via
`setUTCSeconds` on `new Date(0)`, and a non-array `roles` claim is wrapped
into a one-element array. -/
def toTokenModel (payload : PayloadJson) : TokenPayloadModel :=
  { sub := payload.sub
    roles := match payload.roles with
      | .array rs => rs
      | .single r => [r]
    uid := payload.uid
    exp := payload.exp * 1000
    iss := payload.iss
    aud := payload.aud }

/-- The pure part of `parseToken` on a non-null raw token: take segment 1 of
`rawToken.split('.')`, feed it to `atob` + `JSON.parse` (the abstract
`decode`), and build the token model; `none` when the primitives throw. -/
def decodeRawToken (decode : String → Option PayloadJson) (rawToken : String) :
    Option TokenPayloadModel :=
  match (jsSplitDot rawToken)[1]? with
  | none => none
  | some seg =>
    match decode seg with
    | none => none
    | some payload => some (toTokenModel payload)

/-- `parseToken` (auth.service.ts lines 284-326). The argument is nullable
because `isInRole`/`getUsername` pass it `this.getRawToken()` unchecked; on
`null` the very first step `rawToken.split('.')` throws (`none`). On
success it also sets `authenticated := true` and emits `true` on the
broadcast subject. -/
def parseToken (decode : String → Option PayloadJson) (rawToken : Option String)
    (st : AuthState) : Option (TokenPayloadModel × AuthState × List Bool) :=
  match rawToken with
  | none => none
  | some raw =>
    match decodeRawToken decode raw with
    | none => none
    | some tokenModel =>
      some (tokenModel, { st with authenticated := true }, [true])

/-- `isAuthenticated` (auth.service.ts lines 98-123): cached flag short
circuit; otherwise load a raw token, parse it (side effects included) and
test expiry. -/
def isAuthenticated (decode : String → Option PayloadJson) (nowInMilli : Int)
    (st : AuthState) : Option (Bool × AuthState × List Bool) :=
  if st.authenticated then
    some (true, st, [])
  else
    match getRawToken st with
    | some rawToken =>
      match parseToken decode (some rawToken) st with
      | none => none
      | some (parsedToken, st1, evs) =>
        if tokenIsExpired nowInMilli parsedToken then
          some (false, st1, evs)
        else
          some (true, st1, evs)
    | none => some (false, st, [])

/-- `isInRole` (auth.service.ts lines 132-150): if `isAuthenticated()` then
re-parse `getRawToken()` (nullable, unchecked) and test `roles.includes`. -/
def isInRole (decode : String → Option PayloadJson) (nowInMilli : Int)
    (roleName : String) (st : AuthState) : Option (Bool × AuthState × List Bool) :=
  match isAuthenticated decode nowInMilli st with
  | none => none
  | some (auth, st1, evs1) =>
    if auth then
      match parseToken decode (getRawToken st1) st1 with
      | none => none
      | some (token, st2, evs2) =>
        some (token.roles.contains roleName, st2, evs1 ++ evs2)
    else
      some (false, st1, evs1)

/-- `getUsername` (auth.service.ts lines 157-170): if `isAuthenticated()`
then re-parse `getRawToken()` (nullable, unchecked) and return `token.sub`,
else `null`. -/
def getUsername (decode : String → Option PayloadJson) (nowInMilli : Int)
    (st : AuthState) : Option (Option String × AuthState × List Bool) :=
  match isAuthenticated decode nowInMilli st with
  | none => none
  | some (auth, st1, evs1) =>
    if auth then
      match parseToken decode (getRawToken st1) st1 with
      | none => none
      | some (token, st2, evs2) =>
        some (some token.sub, st2, evs1 ++ evs2)
    else
      some (none, st1, evs1)

/-- `storeToken` (auth.service.ts lines 334-355): write the token to the
chosen scope, remove it from the other, set `authenticated := true`, emit
`true`. -/
def storeToken (responseBody : LoginSuccessModel) (remember : Bool)
    (st : AuthState) : AuthState × List Bool :=
  if remember then
    ({ st with localToken := some responseBody.token, sessionToken := none,
               authenticated := true }, [true])
  else
    ({ st with sessionToken := some responseBody.token, localToken := none,
               authenticated := true }, [true])

/-- `logout` (auth.service.ts lines 61-66): remove the token from both
scopes, clear the flag, emit `false`. -/
def logout (st : AuthState) : AuthState × List Bool :=
  ({ st with sessionToken := none, localToken := none, authenticated := false },
   [false])

/-- `handleError` (auth.service.ts lines 364-375): both branches only log;
the returned error observable always carries the same fixed message. -/
def handleError (_error : HttpError) : String := "Invalid Username or Password"

/-- `login` (auth.service.ts lines 41-56) with the HTTP exchange resolved:
on a 2xx response run `storeToken` and return `LOGIN_SUCCESS_MSG`; on any
error the `catchError(this.handleError)` branch runs with the state
untouched and nothing emitted. -/
def login (response : Except HttpError LoginSuccessModel) (remember : Bool)
    (st : AuthState) : Except String String × AuthState × List Bool :=
  match response with
  | .ok body =>
    let stored := storeToken body remember st
    (.ok LOGIN_SUCCESS_MSG, stored.1, stored.2)
  | .error e => (.error (handleError e), st, [])

/-- `getRegistrationUrlGivenRole` (auth.service.ts lines 179-188): a
`switch` on the role whose `Student`, `Teacher` and `default` branches all
return `STUDENT_REGISTER_URL`. -/
def getRegistrationUrlGivenRole (role : String) : String :=
  if role == ApplicationRole.Student then STUDENT_REGISTER_URL
  else if role == ApplicationRole.Teacher then STUDENT_REGISTER_URL
  else STUDENT_REGISTER_URL

/-- `register` (auth.service.ts lines 76-91) with the HTTP exchange
resolved: the URL posted to, and the piped result (success message or the
`handleError` message). The user is never authenticated as a side effect. -/
def register (role : String) (response : Except HttpError Unit) :
    String × Except String String :=
  (getRegistrationUrlGivenRole role,
   match response with
   | .ok _ => .ok REGISTER_SUCCESS_MSG
   | .error e => .error (handleError e))

/-- Concrete payload used to instantiate theorems: expires at second 1
(millisecond 1000), roles `["Student"]`. -/
def payload0 : PayloadJson :=
  { exp := 1, roles := .array ["Student"], sub := "alice", uid := "7",
    iss := "issuer", aud := "audience" }

/-- Concrete decode table standing for `atob` + `JSON.parse`: only the
segment `"PAYLOAD"` decodes, to `payload0`. -/
def dec0 : String → Option PayloadJson :=
  fun s => if s = "PAYLOAD" then some payload0 else none

/-- A well-formed raw token whose payload segment is `"PAYLOAD"`. -/
def rawTok0 : String := "HEAD.PAYLOAD.SIG"

/-- State with `rawTok0` remembered in the persistent scope and the cached
flag clear, as after a browser refresh. -/
def st0 : AuthState :=
  { sessionToken := none, localToken := some rawTok0, authenticated := false }

/-- Changing only the `authenticated` flag does not change what
`getRawToken` sees: it reads only the two storage scopes. -/
theorem getRawToken_flag_irrelevant (st : AuthState) (b : Bool) :
    getRawToken { st with authenticated := b } = getRawToken st := rfl

/-- A token accepted by `tokenIsJwtFormat` is non-empty. -/
theorem tokenIsJwtFormat_ne_empty (tok : String) (h : tokenIsJwtFormat tok = true) :
    tok.isEmpty = false := by
  unfold tokenIsJwtFormat at h
  by_cases he : tok.isEmpty
  · simp [he] at h
  · simpa using he

/-- C2 counterexample: at the boundary instant where `expiresAt` equals
`now` (payload second 1, now millisecond 1000), `tokenIsExpired` returns
`false`, whereas the claim says `expiresAt <= now` is treated as expired. -/
theorem tokenIsExpired_boundary_cex :
    (toTokenModel payload0).exp ≤ 1000 ∧
      tokenIsExpired 1000 (toTokenModel payload0) = false := by
  decide

/-- C2 (amended): `tokenIsExpired(payload, now)` returns true iff
`payload.expiresAt < now`, strictly; the boundary instant where
`expiresAt = now` is treated as not expired. -/
theorem tokenIsExpired_iff_strictly_past (nowInMilli : Int)
    (parsedToken : TokenPayloadModel) :
    tokenIsExpired nowInMilli parsedToken = true ↔ parsedToken.exp < nowInMilli := by
  unfold tokenIsExpired
  split
  · rename_i h
    simp only [true_iff]
    omega
  · rename_i h
    simp only [Bool.false_eq_true, false_iff]
    omega

/-- C4: a failed login (any `HttpError`, whether a client-side/transport
`ErrorEvent` or a backend non-2xx status) leaves both storage scopes and
the session state exactly as they were, emits nothing, and returns the
fixed message "Invalid Username or Password". -/
theorem login_failure_frame (e : HttpError) (remember : Bool) (st : AuthState) :
    login (.error e) remember st = (.error "Invalid Username or Password", st, []) :=
  rfl

/-- C5 counterexample: saving the raw string `"x"` (not three dot-separated
segments) with remember=true puts it in the persistent scope, yet `load()`
(`getRawToken`) returns `none`, not that token, because the load path
re-checks well-formedness. -/
theorem save_load_malformed_cex :
    (storeToken { token := "x" } true initState).1.localToken = some "x" ∧
      getRawToken (storeToken { token := "x" } true initState).1 = none := by
  decide

/-- C5 (amended): for every WELL-FORMED token string (three dot-separated
segments), save with remember=true followed by load returns that token and
leaves the session-only scope empty; save with remember=false is the
mirror; and after any save — well-formed or not — exactly one scope holds
the token. -/
theorem storeToken_getRawToken_roundtrip (tok : String) (st : AuthState)
    (h : tokenIsJwtFormat tok = true) :
    getRawToken (storeToken { token := tok } true st).1 = some tok ∧
      (storeToken { token := tok } true st).1.sessionToken = none ∧
      getRawToken (storeToken { token := tok } false st).1 = some tok ∧
      (storeToken { token := tok } false st).1.localToken = none ∧
      ∀ remember : Bool,
        ((storeToken { token := tok } remember st).1.sessionToken = some tok ∧
            (storeToken { token := tok } remember st).1.localToken = none) ∨
          ((storeToken { token := tok } remember st).1.localToken = some tok ∧
            (storeToken { token := tok } remember st).1.sessionToken = none) := by
  have hne : tok.isEmpty = false := tokenIsJwtFormat_ne_empty tok h
  refine ⟨?_, rfl, ?_, rfl, ?_⟩
  · simp [storeToken, getRawToken, jsTruthy, hne, h]
  · simp [storeToken, getRawToken, jsTruthy, hne, h]
  · intro remember
    cases remember
    · left
      exact ⟨rfl, rfl⟩
    · right
      exact ⟨rfl, rfl⟩

/-- C5 witness: the round-trip theorem applied to the concrete well-formed
token `"a.b.c"` and the initial state. -/
theorem storeToken_getRawToken_roundtrip_witness :
    getRawToken (storeToken { token := "a.b.c" } true initState).1 = some "a.b.c" ∧
      (storeToken { token := "a.b.c" } true initState).1.sessionToken = none ∧
      getRawToken (storeToken { token := "a.b.c" } false initState).1 = some "a.b.c" ∧
      (storeToken { token := "a.b.c" } false initState).1.localToken = none ∧
      ∀ remember : Bool,
        ((storeToken { token := "a.b.c" } remember initState).1.sessionToken = some "a.b.c" ∧
            (storeToken { token := "a.b.c" } remember initState).1.localToken = none) ∨
          ((storeToken { token := "a.b.c" } remember initState).1.localToken = some "a.b.c" ∧
            (storeToken { token := "a.b.c" } remember initState).1.sessionToken = none) :=
  storeToken_getRawToken_roundtrip "a.b.c" initState (by decide)

/-- C6: after `logout()` both storage scopes are empty, the cached flag is
false, the broadcast emitted exactly `false`, and a subsequent
`isAuthenticated()` (under any decode oracle and any clock) returns false
without touching state or emitting. -/
theorem logout_clears_all (decode : String → Option PayloadJson) (nowInMilli : Int)
    (st : AuthState) :
    (logout st).1.sessionToken = none ∧
      (logout st).1.localToken = none ∧
      (logout st).1.authenticated = false ∧
      (logout st).2 = [false] ∧
      isAuthenticated decode nowInMilli (logout st).1 =
        some (false, (logout st).1, []) := by
  refine ⟨rfl, rfl, rfl, rfl, ?_⟩
  simp [logout, isAuthenticated, getRawToken, jsTruthy]

/-- C8: every role — Student, Teacher, and any unrecognized role string —
is routed to the student registration endpoint, so `register` always posts
to `STUDENT_REGISTER_URL`. -/
theorem register_routes_every_role_to_student (role : String)
    (response : Except HttpError Unit) :
    (register role response).1 = STUDENT_REGISTER_URL ∧
      getRegistrationUrlGivenRole role = STUDENT_REGISTER_URL := by
  have h : getRegistrationUrlGivenRole role = STUDENT_REGISTER_URL := by
    unfold getRegistrationUrlGivenRole
    split
    · rfl
    · split <;> rfl
  exact ⟨h, h⟩

/-- When the cached flag is already true, `isAuthenticated` short-circuits:
true, state untouched, nothing emitted. -/
theorem isAuthenticated_of_flag (decode : String → Option PayloadJson)
    (nowInMilli : Int) (st : AuthState) (hA : st.authenticated = true) :
    isAuthenticated decode nowInMilli st = some (true, st, []) := by
  unfold isAuthenticated
  rw [hA]
  simp

/-- When the cached flag is false and no well-formed token is stored,
`isAuthenticated` returns false, state untouched, nothing emitted. -/
theorem isAuthenticated_of_no_token (decode : String → Option PayloadJson)
    (nowInMilli : Int) (st : AuthState) (hA : st.authenticated = false)
    (hraw : getRawToken st = none) :
    isAuthenticated decode nowInMilli st = some (false, st, []) := by
  unfold isAuthenticated
  rw [hA, hraw]
  simp

/-- When the cached flag is false and a well-formed token is stored whose
payload decodes, `isAuthenticated` parses it — setting the flag and
emitting `true` — and returns the negation of the expiry test. -/
theorem isAuthenticated_of_parse (decode : String → Option PayloadJson)
    (nowInMilli : Int) (st : AuthState) (raw : String) (tok : TokenPayloadModel)
    (hA : st.authenticated = false) (hraw : getRawToken st = some raw)
    (htok : decodeRawToken decode raw = some tok) :
    isAuthenticated decode nowInMilli st =
      some (!tokenIsExpired nowInMilli tok,
            { st with authenticated := true }, [true]) := by
  unfold isAuthenticated parseToken
  simp only [hA, hraw, htok]
  cases hexp : tokenIsExpired nowInMilli tok <;> simp [hexp]

/-- When the cached flag is false and a well-formed token is stored whose
payload does not decode, `isAuthenticated` throws. -/
theorem isAuthenticated_of_parse_failure (decode : String → Option PayloadJson)
    (nowInMilli : Int) (st : AuthState) (raw : String)
    (hA : st.authenticated = false) (hraw : getRawToken st = some raw)
    (htok : decodeRawToken decode raw = none) :
    isAuthenticated decode nowInMilli st = none := by
  unfold isAuthenticated parseToken
  simp only [hA, hraw, htok]
  simp

/-- C1 counterexample: in the state `st0` (flag false, persistent scope
holding the well-formed but expired token `rawTok0`, clock at millisecond
5000), `isAuthenticated()` returns false — yet it mutates the cached flag
to true and emits a broadcast, where the claim requires "returns false and
leaves the cached flag unchanged" in every case without a non-expired
token. -/
theorem isAuthenticated_expired_mutates_flag_cex :
    st0.authenticated = false ∧
      isAuthenticated dec0 5000 st0 =
        some (false, { st0 with authenticated := true }, [true]) := by
  exact ⟨rfl, rfl⟩

/-- C1 (amended): provided every stored well-formed token decodes,
`isAuthenticated()` returns true iff the cached flag is already true or a
non-expired well-formed token is found; when the flag is true, or when the
flag is false and no well-formed token is found, the state is unchanged and
nothing is emitted; but whenever the flag is false and a well-formed token
is found, the cached flag is set to true and a broadcast of `true` is
emitted even if the token is expired and false is returned. -/
theorem isAuthenticated_spec (decode : String → Option PayloadJson)
    (nowInMilli : Int) (st : AuthState)
    (hdec : ∀ raw, getRawToken st = some raw →
      ∃ tok, decodeRawToken decode raw = some tok) :
    ∃ b st' evs, isAuthenticated decode nowInMilli st = some (b, st', evs) ∧
      (b = true ↔ (st.authenticated = true ∨
        ∃ raw tok, getRawToken st = some raw ∧
          decodeRawToken decode raw = some tok ∧
          tokenIsExpired nowInMilli tok = false)) ∧
      (st.authenticated = true → st' = st ∧ evs = []) ∧
      (st.authenticated = false → getRawToken st = none →
        b = false ∧ st' = st ∧ evs = []) ∧
      (st.authenticated = false → ∀ raw, getRawToken st = some raw →
        st' = { st with authenticated := true } ∧ evs = [true]) := by
  by_cases hA : st.authenticated = true
  · refine ⟨true, st, [], isAuthenticated_of_flag decode nowInMilli st hA,
      by simp [hA], fun _ => ⟨rfl, rfl⟩, ?_, ?_⟩
    · intro hf
      simp [hA] at hf
    · intro hf
      simp [hA] at hf
  · have hA' : st.authenticated = false := by
      cases h : st.authenticated
      · rfl
      · exact absurd h hA
    cases hraw : getRawToken st with
    | none =>
      refine ⟨false, st, [],
        isAuthenticated_of_no_token decode nowInMilli st hA' hraw, ?_,
        ?_, fun _ _ => ⟨rfl, rfl, rfl⟩, ?_⟩
      · simp only [Bool.false_eq_true, false_iff]
        rintro (h | ⟨raw, tok, hr, -, -⟩)
        · exact hA h
        · exact Option.noConfusion hr
      · intro h
        exact absurd h hA
      · intro _ raw hr
        exact Option.noConfusion hr
    | some raw =>
      obtain ⟨tok, htok⟩ := hdec raw hraw
      refine ⟨!tokenIsExpired nowInMilli tok, { st with authenticated := true },
        [true],
        isAuthenticated_of_parse decode nowInMilli st raw tok hA' hraw htok,
        ?_, ?_, ?_, fun _ _ _ => ⟨rfl, rfl⟩⟩
      · constructor
        · intro hb
          refine Or.inr ⟨raw, tok, rfl, htok, ?_⟩
          cases h : tokenIsExpired nowInMilli tok
          · rfl
          · rw [h] at hb
            cases hb
        · rintro (h | ⟨raw2, tok2, hr2, ht2, he2⟩)
          · exact absurd h hA
          · injection hr2 with hr2
            subst hr2
            rw [htok] at ht2
            injection ht2 with ht2
            subst ht2
            rw [he2]
            rfl
      · intro h
        exact absurd h hA
      · intro _ h
        exact Option.noConfusion h

/-- C1 witness: the amended specification instantiated with the concrete
decode table `dec0`, clock 500 and state `st0`, whose stored token decodes
and is not yet expired. -/
theorem isAuthenticated_spec_witness :
    ∃ b st' evs, isAuthenticated dec0 500 st0 = some (b, st', evs) ∧
      (b = true ↔ (st0.authenticated = true ∨
        ∃ raw tok, getRawToken st0 = some raw ∧
          decodeRawToken dec0 raw = some tok ∧
          tokenIsExpired 500 tok = false)) ∧
      (st0.authenticated = true → st' = st0 ∧ evs = []) ∧
      (st0.authenticated = false → getRawToken st0 = none →
        b = false ∧ st' = st0 ∧ evs = []) ∧
      (st0.authenticated = false → ∀ raw, getRawToken st0 = some raw →
        st' = { st0 with authenticated := true } ∧ evs = [true]) :=
  isAuthenticated_spec dec0 500 st0
    (by
      intro raw hraw
      refine ⟨toTokenModel payload0, ?_⟩
      have h : raw = rawTok0 := by
        have : getRawToken st0 = some rawTok0 := by decide
        rw [this] at hraw
        injection hraw with hraw
        exact hraw.symm
      rw [h]
      decide)

/-- `parseToken` on `null` throws at `rawToken.split('.')`. -/
theorem parseToken_null (decode : String → Option PayloadJson) (st : AuthState) :
    parseToken decode none st = none := rfl

/-- `parseToken` on a raw token whose payload decodes: returns the token
model, sets the flag, emits `true`. -/
theorem parseToken_some (decode : String → Option PayloadJson) (raw : String)
    (tok : TokenPayloadModel) (st : AuthState)
    (htok : decodeRawToken decode raw = some tok) :
    parseToken decode (some raw) st =
      some (tok, { st with authenticated := true }, [true]) := by
  unfold parseToken
  simp only [htok]

/-- Any successful run of `parseToken` leaves the cached flag true. -/
theorem parseToken_sets_flag (decode : String → Option PayloadJson)
    (rawToken : Option String) (st : AuthState)
    (out : TokenPayloadModel × AuthState × List Bool)
    (h : parseToken decode rawToken st = some out) :
    out.2.1.authenticated = true := by
  cases rawToken with
  | none => cases h
  | some raw =>
    unfold parseToken at h
    cases htok : decodeRawToken decode raw with
    | none =>
      simp [htok] at h
    | some tok =>
      simp only [htok] at h
      injection h with h
      rw [← h]

/-- C3 counterexample: in a state that is already authenticated (so no
transition can occur) with a valid stored token, a call to `isInRole`
re-parses the token and the broadcast emits `true` although the state
before and after is the same — contradicting "emits only on actual
authentication-state transitions". -/
theorem broadcast_no_transition_cex :
    ({ st0 with authenticated := true } : AuthState).authenticated = true ∧
      isInRole dec0 500 "Student" { st0 with authenticated := true } =
        some (true, { st0 with authenticated := true }, [true]) :=
  ⟨rfl, rfl⟩

/-- C3 (amended): the broadcast emits on every token decode, every store
and every logout, whether or not the authentication state actually
transitions: a successful login emits `true` exactly once (so a
well-formed-token, remember=true login does); a poll of `isAuthenticated()`
that returns the cached true value, or finds no well-formed token, emits
nothing; but a poll that parses a stored decodable token emits `true` even
when it returns false (expired token) or when the state was already
authenticated. -/
theorem broadcast_emission_spec :
    (∀ (body : LoginSuccessModel) (remember : Bool) (st : AuthState),
      (login (.ok body) remember st).2.2 = [true]) ∧
    (∀ (body : LoginSuccessModel) (remember : Bool) (st : AuthState),
      (storeToken body remember st).2 = [true]) ∧
    (∀ st : AuthState, (logout st).2 = [false]) ∧
    (∀ (decode : String → Option PayloadJson) (nowInMilli : Int)
      (st : AuthState), st.authenticated = true →
      isAuthenticated decode nowInMilli st = some (true, st, [])) ∧
    (∀ (decode : String → Option PayloadJson) (nowInMilli : Int)
      (st : AuthState), st.authenticated = false → getRawToken st = none →
      isAuthenticated decode nowInMilli st = some (false, st, [])) ∧
    (∀ (decode : String → Option PayloadJson) (nowInMilli : Int)
      (st : AuthState) (raw : String) (tok : TokenPayloadModel),
      st.authenticated = false → getRawToken st = some raw →
      decodeRawToken decode raw = some tok →
      isAuthenticated decode nowInMilli st =
        some (!tokenIsExpired nowInMilli tok,
              { st with authenticated := true }, [true])) := by
  refine ⟨?_, ?_, fun st => rfl, isAuthenticated_of_flag,
    isAuthenticated_of_no_token, isAuthenticated_of_parse⟩
  · intro body remember st
    cases remember <;> rfl
  · intro body remember st
    cases remember <;> rfl

/-- C3 witness: the emission specification applied to the concrete expired
token state `st0` — the poll returns false yet emits `true` once. -/
theorem broadcast_emission_spec_witness :
    isAuthenticated dec0 5000 st0 =
      some (!tokenIsExpired 5000 (toTokenModel payload0),
            { st0 with authenticated := true }, [true]) := by
  have h := broadcast_emission_spec
  exact h.2.2.2.2.2 dec0 5000 st0 rawTok0 (toTokenModel payload0) rfl
    (by decide) (by decide)

/-- `isInRole` when `isAuthenticated()` succeeded and the re-loaded token
decodes: membership test on the normalized roles, with a second parse side
effect (flag set again, second emission). -/
theorem isInRole_of_parse (decode : String → Option PayloadJson)
    (nowInMilli : Int) (roleName : String) (st st1 : AuthState)
    (evs1 : List Bool) (raw : String) (tok : TokenPayloadModel)
    (hAuth : isAuthenticated decode nowInMilli st = some (true, st1, evs1))
    (hraw : getRawToken st1 = some raw)
    (htok : decodeRawToken decode raw = some tok) :
    isInRole decode nowInMilli roleName st =
      some (tok.roles.contains roleName, { st1 with authenticated := true },
            evs1 ++ [true]) := by
  unfold isInRole
  simp only [hAuth]
  rw [hraw, parseToken_some decode raw tok st1 htok]
  simp

/-- `isInRole` when `isAuthenticated()` returned false: false, with the
state and emissions of the authentication check. -/
theorem isInRole_of_not_auth (decode : String → Option PayloadJson)
    (nowInMilli : Int) (roleName : String) (st st1 : AuthState)
    (evs1 : List Bool)
    (hAuth : isAuthenticated decode nowInMilli st = some (false, st1, evs1)) :
    isInRole decode nowInMilli roleName st = some (false, st1, evs1) := by
  unfold isInRole
  simp only [hAuth]
  simp

/-- `isInRole` when `isAuthenticated()` returned true but no well-formed
token is stored: `parseToken(null)` throws. -/
theorem isInRole_crash (decode : String → Option PayloadJson)
    (nowInMilli : Int) (roleName : String) (st st1 : AuthState)
    (evs1 : List Bool)
    (hAuth : isAuthenticated decode nowInMilli st = some (true, st1, evs1))
    (hraw : getRawToken st1 = none) :
    isInRole decode nowInMilli roleName st = none := by
  unfold isInRole
  simp only [hAuth]
  rw [hraw, parseToken_null]
  simp

/-- `getUsername` when `isAuthenticated()` returned true but no well-formed
token is stored: `parseToken(null)` throws. -/
theorem getUsername_crash (decode : String → Option PayloadJson)
    (nowInMilli : Int) (st st1 : AuthState) (evs1 : List Bool)
    (hAuth : isAuthenticated decode nowInMilli st = some (true, st1, evs1))
    (hraw : getRawToken st1 = none) :
    getUsername decode nowInMilli st = none := by
  unfold getUsername
  simp only [hAuth]
  rw [hraw, parseToken_null]
  simp

/-- C7: provided every stored well-formed token decodes and the cached flag
is only true when a well-formed token is stored, `isInRole(role)` returns
true iff `isAuthenticated()` returns true and the decoded (normalized) role
sequence of the stored token contains the role; and the normalization wraps
a single-role claim into a one-element sequence while keeping an array
claim as is. -/
theorem isInRole_iff (decode : String → Option PayloadJson) (nowInMilli : Int)
    (roleName : String) (st : AuthState)
    (hdec : ∀ raw, getRawToken st = some raw →
      ∃ tok, decodeRawToken decode raw = some tok)
    (hflag : st.authenticated = true → ∃ raw, getRawToken st = some raw) :
    (∃ b st' evs bA stA evsA,
      isInRole decode nowInMilli roleName st = some (b, st', evs) ∧
      isAuthenticated decode nowInMilli st = some (bA, stA, evsA) ∧
      (b = true ↔ (bA = true ∧ ∃ raw tok, getRawToken st = some raw ∧
        decodeRawToken decode raw = some tok ∧
        tok.roles.contains roleName = true))) ∧
    (∀ (payload : PayloadJson) (r : String),
      payload.roles = RolesClaim.single r → (toTokenModel payload).roles = [r]) ∧
    (∀ (payload : PayloadJson) (rs : List String),
      payload.roles = RolesClaim.array rs → (toTokenModel payload).roles = rs) := by
  refine ⟨?_, ?_, ?_⟩
  · by_cases hA : st.authenticated = true
    · obtain ⟨raw, hraw⟩ := hflag hA
      obtain ⟨tok, htok⟩ := hdec raw hraw
      have hAuth := isAuthenticated_of_flag decode nowInMilli st hA
      have hrole := isInRole_of_parse decode nowInMilli roleName st st []
        raw tok hAuth hraw htok
      refine ⟨tok.roles.contains roleName, { st with authenticated := true },
        [] ++ [true], true, st, [], hrole, hAuth, ?_⟩
      constructor
      · intro hb
        exact ⟨rfl, raw, tok, hraw, htok, hb⟩
      · rintro ⟨-, raw2, tok2, hr2, ht2, hc2⟩
        rw [hraw] at hr2
        injection hr2 with hr2
        subst hr2
        rw [htok] at ht2
        injection ht2 with ht2
        subst ht2
        exact hc2
    · have hA' : st.authenticated = false := by
        cases h : st.authenticated
        · rfl
        · exact absurd h hA
      cases hraw : getRawToken st with
      | none =>
        have hAuth := isAuthenticated_of_no_token decode nowInMilli st hA' hraw
        have hrole := isInRole_of_not_auth decode nowInMilli roleName st st []
          hAuth
        refine ⟨false, st, [], false, st, [], hrole, hAuth, ?_⟩
        simp only [Bool.false_eq_true, false_iff]
        rintro ⟨h, -⟩
        cases h
      | some raw =>
        obtain ⟨tok, htok⟩ := hdec raw hraw
        have hAuth := isAuthenticated_of_parse decode nowInMilli st raw tok
          hA' hraw htok
        cases hexp : tokenIsExpired nowInMilli tok with
        | true =>
          rw [hexp] at hAuth
          have hAuth' : isAuthenticated decode nowInMilli st =
              some (false, { st with authenticated := true }, [true]) := by
            simpa using hAuth
          have hrole := isInRole_of_not_auth decode nowInMilli roleName st
            { st with authenticated := true } [true] hAuth'
          refine ⟨false, { st with authenticated := true }, [true],
            false, { st with authenticated := true }, [true],
            hrole, hAuth', ?_⟩
          simp only [Bool.false_eq_true, false_iff]
          rintro ⟨h, -⟩
          cases h
        | false =>
          rw [hexp] at hAuth
          have hAuth' : isAuthenticated decode nowInMilli st =
              some (true, { st with authenticated := true }, [true]) := by
            simpa using hAuth
          have hraw1 : getRawToken { st with authenticated := true } =
              some raw := hraw
          have hrole := isInRole_of_parse decode nowInMilli roleName st
            { st with authenticated := true } [true] raw tok hAuth' hraw1 htok
          refine ⟨tok.roles.contains roleName, _, [true] ++ [true],
            true, { st with authenticated := true }, [true],
            hrole, hAuth', ?_⟩
          constructor
          · intro hb
            exact ⟨rfl, raw, tok, rfl, htok, hb⟩
          · rintro ⟨-, raw2, tok2, hr2, ht2, hc2⟩
            injection hr2 with hr2
            subst hr2
            rw [htok] at ht2
            injection ht2 with ht2
            subst ht2
            exact hc2
  · intro payload r h
    simp [toTokenModel, h]
  · intro payload rs h
    simp [toTokenModel, h]

/-- C7 witness: the role-membership specification instantiated with the
concrete decode table `dec0`, clock 500, role `"Student"` and state
`st0`. -/
theorem isInRole_iff_witness :
    ∃ b st' evs bA stA evsA,
      isInRole dec0 500 "Student" st0 = some (b, st', evs) ∧
      isAuthenticated dec0 500 st0 = some (bA, stA, evsA) ∧
      (b = true ↔ (bA = true ∧ ∃ raw tok, getRawToken st0 = some raw ∧
        decodeRawToken dec0 raw = some tok ∧
        tok.roles.contains "Student" = true)) :=
  (isInRole_iff dec0 500 "Student" st0
    (by
      intro raw hraw
      refine ⟨toTokenModel payload0, ?_⟩
      have h : getRawToken st0 = some rawTok0 := by decide
      rw [h] at hraw
      injection hraw with hraw
      rw [← hraw]
      decide)
    (fun h => absurd h (by decide))).1

/-- C9: in every state where the cached flag is true but neither scope
holds a well-formed token, `isInRole(role)` and `getUsername()` pass the
null result of `getRawToken()` to `parseToken`, whose first step throws —
they crash instead of returning false/null; and such a state is reachable,
because a successful login whose body carries the malformed token `"x"`
sets the flag without checking well-formedness. -/
theorem phantom_auth_crash (decode : String → Option PayloadJson)
    (nowInMilli : Int) (roleName : String) (st : AuthState)
    (hA : st.authenticated = true) (hraw : getRawToken st = none) :
    isInRole decode nowInMilli roleName st = none ∧
      getUsername decode nowInMilli st = none ∧
      (login (.ok { token := "x" }) true initState).2.1.authenticated = true ∧
      getRawToken (login (.ok { token := "x" }) true initState).2.1 = none := by
  have hAuth := isAuthenticated_of_flag decode nowInMilli st hA
  exact ⟨isInRole_crash decode nowInMilli roleName st st [] hAuth hraw,
    getUsername_crash decode nowInMilli st st [] hAuth hraw,
    rfl, by decide⟩

/-- C9 witness: the crash specification at the concrete phantom state with
the flag true and both scopes empty. -/
theorem phantom_auth_crash_witness :
    isInRole dec0 0 "Student" { initState with authenticated := true } = none ∧
      getUsername dec0 0 { initState with authenticated := true } = none ∧
      (login (.ok { token := "x" }) true initState).2.1.authenticated = true ∧
      getRawToken (login (.ok { token := "x" }) true initState).2.1 = none :=
  phantom_auth_crash dec0 0 "Student" { initState with authenticated := true }
    rfl (by decide)

/-- C10: once `parseToken` has run the cached flag is true; among the
service's operations only `logout()` resets it (every successful
`parseToken`, `isInRole`, `getUsername` and `storeToken` leaves a true flag
true, and `isAuthenticated` on a true flag returns the state unchanged);
hence from a state with the flag false and a well-formed but expired
stored token, the first `isAuthenticated()` returns false while setting the
flag, and every subsequent `isAuthenticated()` — at any clock, with no new
login — returns true. -/
theorem flag_persists_until_logout (decode : String → Option PayloadJson)
    (nowInMilli now2 : Int) (roleName : String) (st : AuthState)
    (raw : String) (tok : TokenPayloadModel) :
    (∀ (rawArg : Option String) (out : TokenPayloadModel × AuthState × List Bool),
      parseToken decode rawArg st = some out → out.2.1.authenticated = true) ∧
    (st.authenticated = true →
      isAuthenticated decode nowInMilli st = some (true, st, [])) ∧
    (∀ out : Bool × AuthState × List Bool,
      isInRole decode nowInMilli roleName st = some out →
      st.authenticated = true → out.2.1.authenticated = true) ∧
    (∀ out : Option String × AuthState × List Bool,
      getUsername decode nowInMilli st = some out →
      st.authenticated = true → out.2.1.authenticated = true) ∧
    (∀ (body : LoginSuccessModel) (remember : Bool),
      (storeToken body remember st).1.authenticated = true) ∧
    ((logout st).1.authenticated = false) ∧
    (st.authenticated = false → getRawToken st = some raw →
      decodeRawToken decode raw = some tok →
      tokenIsExpired nowInMilli tok = true →
      isAuthenticated decode nowInMilli st =
        some (false, { st with authenticated := true }, [true]) ∧
      isAuthenticated decode now2 { st with authenticated := true } =
        some (true, { st with authenticated := true }, [])) := by
  refine ⟨fun rawArg out h => parseToken_sets_flag decode rawArg st out h,
    isAuthenticated_of_flag decode nowInMilli st, ?_, ?_, ?_, rfl, ?_⟩
  · intro out h hA
    unfold isInRole at h
    rw [isAuthenticated_of_flag decode nowInMilli st hA] at h
    cases hp : parseToken decode (getRawToken st) st with
    | none => simp [hp] at h
    | some out2 =>
      obtain ⟨tok2, st2, evs2⟩ := out2
      simp only [hp] at h
      have h2 : st2.authenticated = true :=
        parseToken_sets_flag decode (getRawToken st) st (tok2, st2, evs2) hp
      simp at h
      rw [← h]
      exact h2
  · intro out h hA
    unfold getUsername at h
    rw [isAuthenticated_of_flag decode nowInMilli st hA] at h
    cases hp : parseToken decode (getRawToken st) st with
    | none => simp [hp] at h
    | some out2 =>
      obtain ⟨tok2, st2, evs2⟩ := out2
      simp only [hp] at h
      have h2 : st2.authenticated = true :=
        parseToken_sets_flag decode (getRawToken st) st (tok2, st2, evs2) hp
      simp at h
      rw [← h]
      exact h2
  · intro body remember
    cases remember <;> rfl
  · intro hA' hraw htok hexp
    constructor
    · have h := isAuthenticated_of_parse decode nowInMilli st raw tok hA' hraw htok
      rw [hexp] at h
      simpa using h
    · exact isAuthenticated_of_flag decode now2 { st with authenticated := true } rfl

/-- C10 witness: from the concrete state `st0` (flag false, expired
well-formed token stored), the first poll returns false while setting the
flag, and a later poll at clock 99999 returns true. -/
theorem flag_persists_until_logout_witness :
    isAuthenticated dec0 5000 st0 =
      some (false, { st0 with authenticated := true }, [true]) ∧
    isAuthenticated dec0 99999 { st0 with authenticated := true } =
      some (true, { st0 with authenticated := true }, []) := by
  have h := flag_persists_until_logout dec0 5000 99999 "Student" st0 rawTok0
    (toTokenModel payload0)
  exact h.2.2.2.2.2.2 rfl (by decide) (by decide) (by decide)
